import Mathlib

/-!
Verification of the mock-Prometheus core of the `stage` repository
(`internal/prometheus`: scenario catalog, scenario engine, query evaluator,
exposition formatter).

Modelling conventions:
* Go `float64` arithmetic is idealized as exact arithmetic over `ℚ`
  (and over `ℝ` where the code calls `math.Pow(x, 0.5)`, modelled as
  `Real.sqrt`).
* Go `time.Duration` values (int64 nanoseconds) are modelled as `ℚ`
  nanoseconds; catalog entries use the exact nanosecond values from the
  source (`5 * time.Minute = 300000000000`, etc.).
* Query strings are modelled as `List Char`; `strings.TrimSpace`,
  `strings.HasPrefix`, `strings.Contains` and the two package-level
  regular expressions are modelled character by character.
* Fallible evaluation (`parseQuery` returning `(float64, error)`) is
  modelled with `Except (List Char) ℚ`, the error message being the
  string produced by `fmt.Errorf`.
-/

namespace Stage

/-! ## Scenario catalog (`internal/prometheus/scenarios`) -/

/-- Model of the Go struct `Scenario`: a named degradation profile.
Durations are in nanoseconds (the unit of Go `time.Duration`). -/
structure Scenario where
  type : String
  description : String
  errorRateStart : ℚ
  errorRateEnd : ℚ
  errorRateDuration : ℚ
  latencyStart : ℚ
  latencyEnd : ℚ
  latencyDuration : ℚ
  up : ℚ
deriving DecidableEq

/-- The `healthy` catalog entry. -/
def healthyScenario : Scenario :=
  { type := "healthy"
    description := "Healthy application with minimal errors and low latency"
    errorRateStart := 0.1
    errorRateEnd := 0.1
    errorRateDuration := 0
    latencyStart := 100
    latencyEnd := 100
    latencyDuration := 0
    up := 1 }

/-- The `high-errors` catalog entry (`ErrorRateDuration = 5 * time.Minute`). -/
def highErrorsScenario : Scenario :=
  { type := "high-errors"
    description := "High error rate that progressively increases"
    errorRateStart := 5.0
    errorRateEnd := 25.0
    errorRateDuration := 300000000000
    latencyStart := 200
    latencyEnd := 200
    latencyDuration := 0
    up := 1 }

/-- The `latency-spike` catalog entry (`LatencyDuration = 3 * time.Minute`). -/
def latencySpikeScenario : Scenario :=
  { type := "latency-spike"
    description := "Latency spike with gradual increase"
    errorRateStart := 0.5
    errorRateEnd := 0.5
    errorRateDuration := 0
    latencyStart := 150
    latencyEnd := 2000
    latencyDuration := 180000000000
    up := 1 }

/-- The `gradual-degradation` catalog entry (both durations `10 * time.Minute`). -/
def gradualDegradationScenario : Scenario :=
  { type := "gradual-degradation"
    description := "Both errors and latency degrade over time"
    errorRateStart := 0.5
    errorRateEnd := 15.0
    errorRateDuration := 600000000000
    latencyStart := 120
    latencyEnd := 800
    latencyDuration := 600000000000
    up := 1 }

/-- Model of `AllScenarios()`: the Go function builds a
`map[ScenarioType]Scenario` with these four entries; we model the map as an
association list keyed by the scenario type string.  Go does not fix an
iteration order for maps, so any permutation of this list is a possible
iteration order. -/
def AllScenarios : List (String × Scenario) :=
  [("healthy", healthyScenario),
   ("high-errors", highErrorsScenario),
   ("latency-spike", latencySpikeScenario),
   ("gradual-degradation", gradualDegradationScenario)]

/-- Model of `ValidScenarioTypes()`. -/
def ValidScenarioTypes : List String :=
  ["healthy", "high-errors", "latency-spike", "gradual-degradation"]

/-- Model of `GetScenario`: map lookup, falling back to the `healthy`
entry when the key is absent (`scenarios[ScenarioHealthy]`). -/
def GetScenario (scenarioType : String) : Scenario :=
  (AllScenarios.lookup scenarioType).getD healthyScenario

/-- Model of `Scenario.CalculateErrorRate`: linear interpolation from
`ErrorRateStart` to `ErrorRateEnd` over `ErrorRateDuration`, constant when
the duration is zero, clamped to the end value once `progress >= 1.0`. -/
def Scenario.CalculateErrorRate (s : Scenario) (elapsed : ℚ) : ℚ :=
  if s.errorRateDuration = 0 then s.errorRateStart
  else
    let progress := elapsed / s.errorRateDuration
    if 1 ≤ progress then s.errorRateEnd
    else s.errorRateStart + (s.errorRateEnd - s.errorRateStart) * progress

/-- Model of `Scenario.CalculateLatency`: same shape, but the interpolation
uses `math.Pow(progress, 2)`, i.e. a quadratic curve. -/
def Scenario.CalculateLatency (s : Scenario) (elapsed : ℚ) : ℚ :=
  if s.latencyDuration = 0 then s.latencyStart
  else
    let progress := elapsed / s.latencyDuration
    if 1 ≤ progress then s.latencyEnd
    else s.latencyStart + (s.latencyEnd - s.latencyStart) * progress ^ 2

/-- Model of `Scenario.CalculateUp`. -/
def Scenario.CalculateUp (s : Scenario) : ℚ := s.up

/-! ## Scenario engine state (`internal/prometheus/mock.go`) -/

/-- Model of the mutable fields of `MockServer` guarded by its lock:
the current scenario and the start timestamp (nanoseconds). -/
structure MockState where
  currentScenario : Scenario
  startTime : ℚ
deriving DecidableEq

/-- Model of `MetricValues`. -/
structure MetricValues where
  errorRate : ℚ
  latency : ℚ
  up : ℚ
deriving DecidableEq

/-- Model of `MockServer.SetScenario`: look the name up (with silent
fallback to `healthy`) and reset the timer to `now`, replacing both fields
as one unit (the Go code does this under the write lock). -/
def SetScenario (st : MockState) (scenarioType : String) (now : ℚ) : MockState :=
  { currentScenario := GetScenario scenarioType, startTime := now }

/-- Model of `MockServer.calculateCurrentMetrics` with the wall clock made
explicit: `elapsed = now - startTime`. -/
def calculateCurrentMetrics (startTime : ℚ) (s : Scenario) (now : ℚ) : MetricValues :=
  { errorRate := s.CalculateErrorRate (now - startTime)
    latency := s.CalculateLatency (now - startTime)
    up := s.CalculateUp }

/-! ## C7: human-readable duration formatting (`formatDuration`) -/

/-- Model of `d.Round(time.Second)` for a non-negative duration of `ns`
nanoseconds: round to the nearest multiple of `1e9`, halves rounding up
(Go rounds halves away from zero). -/
def roundGo (ns : ℕ) : ℕ :=
  let r := ns % 1000000000
  if r + r < 1000000000 then ns - r else ns + (1000000000 - r)

/-- Model of `formatDuration`: after rounding, `h := int(d.Hours())`,
`m := int(d.Minutes()) % 60`, `s := int(d.Seconds()) % 60`, rendered as
`"Nh Nm Ns"`, `"Nm Ns"` or `"Ns"` depending on which leading parts are
positive. -/
def formatDuration (ns : ℕ) : String :=
  let d := roundGo ns
  let h := d / 3600000000000
  let m := d / 60000000000 % 60
  let s := d / 1000000000 % 60
  if 0 < h then toString h ++ "h " ++ toString m ++ "m " ++ toString s ++ "s"
  else if 0 < m then toString m ++ "m " ++ toString s ++ "s"
  else toString s ++ "s"

/-- Modelled from the spec's words, for comparison with `formatDuration`:
round to the nearest second, then render `"Ns"` under a minute, `"Nm Ms"`
under an hour, `"Nh Mm Ss"` otherwise, always showing all coarser units down
to seconds. -/
def formatDurationSpec (ns : ℕ) : String :=
  let t := (ns + 500000000) / 1000000000
  if t < 60 then toString t ++ "s"
  else if t < 3600 then toString (t / 60) ++ "m " ++ toString (t % 60) ++ "s"
  else toString (t / 3600) ++ "h " ++ toString (t / 60 % 60) ++ "m " ++
    toString (t % 60) ++ "s"

/-! ## C8: listing scenarios iterates a Go map -/

/-- Model of the loop body of `HandleListScenarios`: Go iterates over the map
returned by `AllScenarios()` in an unspecified order and collects
`{type, description}` entries; we make the iteration order an explicit
parameter (any permutation of the association list is a possible order). -/
def listScenarios (iterationOrder : List (String × Scenario)) :
    List (String × String) :=
  iterationOrder.map (fun p => (p.2.type, p.2.description))

/-! ## Query evaluator (`internal/prometheus/metrics.go`) -/

/-- Model of the constant `baselineRequestsPerSecond = 100.0`. -/
def baselineRequestsPerSecond : ℚ := 100

/-- Whitespace as trimmed by Go `strings.TrimSpace` (`unicode.IsSpace`),
restricted to the characters it recognizes. -/
def goIsSpace (c : Char) : Bool :=
  c == ' ' || c == '\t' || c == '\n' || c == '\x0b' || c == '\x0c' ||
    c == '\r' || c == '\u0085' || c == '\u00A0'

/-- Model of `strings.TrimSpace` on a character list. -/
def trimSpace (l : List Char) : List Char :=
  ((l.dropWhile goIsSpace).reverse.dropWhile goIsSpace).reverse

/-- One position of the search for `rateRegex = rate\(([^[]+)\[`: a match
starting here needs the literal `rate(`, then a non-empty greedy run of
non-`[` characters, then `[`; the run is capture group 1. -/
def rateCaptureAt (l : List Char) : Option (List Char) :=
  if List.isPrefixOf "rate(".toList l then
    let rest := l.drop 5
    let run := rest.takeWhile (fun c => c != '[')
    if run ≠ [] ∧ run.length < rest.length then some run else none
  else none

/-- Model of `rateRegex.FindStringSubmatch`: the regexp engine returns the
match at the leftmost starting position (group 1), scanning left to right. -/
def findRateCapture : List Char → Option (List Char)
  | [] => none
  | c :: cs =>
    match rateCaptureAt (c :: cs) with
    | some r => some r
    | none => findRateCapture cs

/-- Characters matched by the `[\d.]` class of `histogramRegex`. -/
def isQuantChar (c : Char) : Bool :=
  c.isDigit || c == '.'

/-- One position of the search for
`histogramRegex = histogram_quantile\(([\d.]+),`: the literal
`histogram_quantile(`, then a non-empty greedy run of digits and dots that
must be immediately followed by a comma; the run is capture group 1. -/
def histCaptureAt (l : List Char) : Option (List Char) :=
  if List.isPrefixOf "histogram_quantile(".toList l then
    let rest := l.drop 19
    let run := rest.takeWhile isQuantChar
    if run ≠ [] ∧ (rest.drop run.length).head? = some ',' then some run
    else none
  else none

/-- Model of `histogramRegex.FindStringSubmatch` (leftmost match, group 1). -/
def findHistCapture : List Char → Option (List Char)
  | [] => none
  | c :: cs =>
    match histCaptureAt (c :: cs) with
    | some r => some r
    | none => findHistCapture cs

/-- Decimal value of a digit string. -/
def digitsVal (l : List Char) : ℕ :=
  l.foldl (fun acc c => acc * 10 + (c.toNat - '0'.toNat)) 0

/-- Character-level part of the `strconv.ParseFloat` model on a token of
shape `[0-9.]+` (the only shape the capture can have): `digits`, `digits.`,
`digits.digits` or `.digits` are accepted, yielding the integer part, the
fraction digits and the fraction length; a lone `.` or a second dot fail. -/
def parseDecimalParts (l : List Char) : Option (ℕ × ℕ × ℕ) :=
  let ip := l.takeWhile Char.isDigit
  let rest := l.drop ip.length
  match rest with
  | [] => if ip = [] then none else some (digitsVal ip, 0, 0)
  | '.' :: frac =>
    if frac.all Char.isDigit ∧ (ip ≠ [] ∨ frac ≠ []) then
      some (digitsVal ip, digitsVal frac, frac.length)
    else none
  | _ => none

/-- The rational value of a parsed decimal token. -/
def ratOfParts : ℕ × ℕ × ℕ → ℚ
  | (ip, f, k) => (ip : ℚ) + (f : ℚ) / 10 ^ k

/-- Model of `strconv.ParseFloat` on the captured token (value idealized as
an exact rational). -/
def parseDecimal (l : List Char) : Option ℚ :=
  (parseDecimalParts l).map ratOfParts

/-- The quantile a query yields through the regexp and `ParseFloat` steps. -/
def extractQuantile (query : List Char) : Option ℚ :=
  (findHistCapture query).bind parseDecimal

/-- Model of the `%f` rendering used in the out-of-range error message
(six fixed decimals; only reached with a non-negative quantile, since the
capture pattern cannot produce a sign). -/
def formatFixed6 (q : ℚ) : List Char :=
  let n : ℕ := (⌊q * 1000000 + 1 / 2⌋).toNat
  let fd := Nat.toDigits 10 (n % 1000000)
  Nat.toDigits 10 (n / 1000000) ++
    ('.' :: (List.replicate (6 - fd.length) '0' ++ fd))

/-- Model of the quantile-band multiplier computed by
`handleHistogramQuantile`. -/
def multiplier (q : ℚ) : ℚ :=
  if 0.99 ≤ q then 2.5
  else if 0.95 ≤ q then 1.5 + (q - 0.95) / (0.99 - 0.95) * (2.5 - 1.5)
  else if 0.50 ≤ q then 0.8 + (q - 0.50) / (0.95 - 0.50) * (1.5 - 0.8)
  else q / 0.50 * 0.8

/-- Model of `strings.Contains`: the needle occurs as a contiguous substring
of the haystack. -/
def containsSub (needle : List Char) : List Char → Bool
  | [] => List.isPrefixOf needle []
  | c :: cs => List.isPrefixOf needle (c :: cs) || containsSub needle cs

/-- Model of `QueryHandler.handleRate`. -/
def handleRate (query : List Char) (m : MetricValues) : Except (List Char) ℚ :=
  match findRateCapture query with
  | none => Except.error "invalid rate query format".toList
  | some cap =>
    let metricName := trimSpace cap
    if containsSub "http_requests_errors_total".toList metricName then
      Except.ok (m.errorRate / 100 * baselineRequestsPerSecond)
    else if containsSub "http_request_duration_seconds".toList metricName then
      Except.ok (m.latency / 1000)
    else Except.error ("unknown metric in rate query: ".toList ++ metricName)

/-- Model of `QueryHandler.handleHistogramQuantile`. -/
def handleHistogramQuantile (query : List Char) (m : MetricValues) :
    Except (List Char) ℚ :=
  match findHistCapture query with
  | none => Except.error "invalid histogram_quantile format".toList
  | some cap =>
    match parseDecimal cap with
    | none => Except.error ("invalid quantile value: ".toList ++ cap)
    | some q =>
      if q < 0 ∨ q > 1 then
        Except.error ("quantile must be between 0 and 1, got: ".toList ++
          formatFixed6 q)
      else Except.ok (m.latency / 1000 * multiplier q)

/-- Model of `QueryHandler.parseQuery`: trim, dispatch on the `rate(` and
`histogram_quantile(` prefixes, then the direct substring checks in source
order, and finally the unknown-metric error. -/
def parseQuery (query : List Char) (m : MetricValues) : Except (List Char) ℚ :=
  let query := trimSpace query
  if List.isPrefixOf "rate(".toList query then handleRate query m
  else if List.isPrefixOf "histogram_quantile(".toList query then
    handleHistogramQuantile query m
  else if containsSub "http_requests_errors_total".toList query then
    Except.ok (m.errorRate / 100 * baselineRequestsPerSecond)
  else if containsSub "http_request_duration_seconds".toList query then
    Except.ok (m.latency / 1000)
  else if containsSub "up".toList query then Except.ok m.up
  else Except.error ("unsupported metric query: ".toList ++ query)

/-- Model of one entry of `PrometheusData.Result`. -/
structure PromResult where
  job : List Char
  timestamp : ℤ
  value : List Char
deriving DecidableEq

/-- Model of `PrometheusResponse` (the struct has exactly these fields:
`Status`, `Data` with result type and results, `Error`, `ErrorType` — there
is no separate machine-readable error-kind field). -/
structure PrometheusResponse where
  status : List Char
  resultType : List Char
  result : List PromResult
  errorMsg : List Char
  errorType : List Char
deriving DecidableEq

/-- Model of `QueryHandler.ExecuteQuery` with the metric snapshot and the
clock made explicit: every parse error becomes a `status: error` /
`errorType: bad_data` response; every success becomes a one-element vector
with the fixed job label and the value rendered with six decimals. -/
def ExecuteQuery (query : List Char) (m : MetricValues) (now : ℤ) :
    PrometheusResponse :=
  match parseQuery query m with
  | Except.error e =>
    { status := "error".toList
      resultType := []
      result := []
      errorMsg := e
      errorType := "bad_data".toList }
  | Except.ok v =>
    { status := "success".toList
      resultType := "vector".toList
      result := [{ job := "demo-app".toList, timestamp := now,
                   value := formatFixed6 v }]
      errorMsg := []
      errorType := [] }

/-! ## Exposition formatter (`QueryHandler.FormatMetrics`) -/

/-- Model of the latency guard in `FormatMetrics`:
`latencySeconds := metrics.Latency / 1000.0`, floored to `0.001` when it is
zero or negative. -/
noncomputable def latencySecondsFloor (latencyMs : ℝ) : ℝ :=
  if latencyMs / 1000 ≤ 0 then 0.001 else latencyMs / 1000

/-- Model of the per-bucket cumulative count in `FormatMetrics`: the full
simulated count of `100` once the boundary reaches the latency, otherwise
`count * math.Pow(bucket/latency, 0.5)`, i.e. a square-root curve
(`Real.sqrt` models `math.Pow(x, 0.5)` for the non-negative ratios that
occur here). -/
noncomputable def cumCount (latencySeconds bucket : ℝ) : ℝ :=
  if latencySeconds ≤ bucket then 100
  else 100 * Real.sqrt (bucket / latencySeconds)

/-- The fixed ascending bucket boundary list of `FormatMetrics`. -/
def bucketBounds : List ℚ :=
  [0.005, 0.01, 0.025, 0.05, 0.1, 0.25, 0.5, 1, 2.5, 5, 10]

/-- The sequence of cumulative bucket counts emitted by `FormatMetrics`
(before `%.0f` rendering), in boundary order. -/
noncomputable def bucketCounts (latencyMs : ℝ) : List ℝ :=
  bucketBounds.map (fun b => cumCount (latencySecondsFloor latencyMs) (b : ℝ))

/-- The value of the `_sum` line: `latencySeconds * count`. -/
noncomputable def expositionSum (latencyMs : ℝ) : ℝ :=
  latencySecondsFloor latencyMs * 100

/-- A sample metric snapshot: the `healthy` scenario at `elapsed = 0`
(`errorRate = 0.1`, `latency = 100`, `up = 1`). -/
def healthySnapshot : MetricValues :=
  { errorRate := 0.1, latency := 100, up := 1 }

/-! ## Theorems -/

/-! ## C1: interpolation and clamping of `CalculateErrorRate` / `CalculateLatency` -/

/-- C1: for every scenario and every `elapsed ≥ 0`: a zero duration makes the
metric constant at its start value; with a positive duration the value at
`elapsed = 0` is the start value, the value at `elapsed = duration` is the end
value, every `elapsed > duration` is clamped to the end value, and in between
the error rate is the linear interpolation `start + (end - start) * progress`
while the latency follows the quadratic curve `start + (end - start) * progress ^ 2`
with `progress = elapsed / duration`. -/
theorem calculate_interpolation_clamping (s : Scenario) (elapsed : ℚ)
    (he : 0 ≤ elapsed) :
    ((s.errorRateDuration = 0 → s.CalculateErrorRate elapsed = s.errorRateStart) ∧
      (0 < s.errorRateDuration →
        s.CalculateErrorRate 0 = s.errorRateStart ∧
        s.CalculateErrorRate s.errorRateDuration = s.errorRateEnd ∧
        (s.errorRateDuration < elapsed → s.CalculateErrorRate elapsed = s.errorRateEnd) ∧
        (elapsed < s.errorRateDuration →
          s.CalculateErrorRate elapsed =
            s.errorRateStart +
              (s.errorRateEnd - s.errorRateStart) * (elapsed / s.errorRateDuration)))) ∧
    ((s.latencyDuration = 0 → s.CalculateLatency elapsed = s.latencyStart) ∧
      (0 < s.latencyDuration →
        s.CalculateLatency 0 = s.latencyStart ∧
        s.CalculateLatency s.latencyDuration = s.latencyEnd ∧
        (s.latencyDuration < elapsed → s.CalculateLatency elapsed = s.latencyEnd) ∧
        (elapsed < s.latencyDuration →
          s.CalculateLatency elapsed =
            s.latencyStart +
              (s.latencyEnd - s.latencyStart) * (elapsed / s.latencyDuration) ^ 2))) := by
  constructor
  · constructor
    · intro h
      simp [Scenario.CalculateErrorRate, h]
    · intro hd
      have hne : s.errorRateDuration ≠ 0 := ne_of_gt hd
      refine ⟨?_, ?_, ?_, ?_⟩
      · simp [Scenario.CalculateErrorRate, hne]
      · simp [Scenario.CalculateErrorRate, hne, div_self hne]
      · intro hlt
        have h1 : 1 < elapsed / s.errorRateDuration := (one_lt_div hd).mpr hlt
        simp [Scenario.CalculateErrorRate, hne, le_of_lt h1]
      · intro hlt
        have h1 : elapsed / s.errorRateDuration < 1 := (div_lt_one hd).mpr hlt
        simp [Scenario.CalculateErrorRate, hne, not_le.mpr h1]
  · constructor
    · intro h
      simp [Scenario.CalculateLatency, h]
    · intro hd
      have hne : s.latencyDuration ≠ 0 := ne_of_gt hd
      refine ⟨?_, ?_, ?_, ?_⟩
      · simp [Scenario.CalculateLatency, hne]
      · simp [Scenario.CalculateLatency, hne, div_self hne]
      · intro hlt
        have h1 : 1 < elapsed / s.latencyDuration := (one_lt_div hd).mpr hlt
        simp [Scenario.CalculateLatency, hne, le_of_lt h1]
      · intro hlt
        have h1 : elapsed / s.latencyDuration < 1 := (div_lt_one hd).mpr hlt
        simp [Scenario.CalculateLatency, hne, not_le.mpr h1]

/-- C1 witness: the `high-errors` scenario, evaluated at its full
`ErrorRateDuration` of five minutes, yields the clamped end value `25`. -/
theorem calculate_interpolation_clamping_witness :
    highErrorsScenario.CalculateErrorRate 300000000000 = 25.0 := by
  have h := ((calculate_interpolation_clamping highErrorsScenario 300000000000
    (by norm_num)).1.2 (by norm_num [highErrorsScenario])).2.1
  simpa [highErrorsScenario] using h

/-! ## C5: scenario lookup falls back to `healthy` -/

/-- C5: for every name, `GetScenario` returns the catalog entry of that name
for the four known names and the `healthy` scenario for every other name,
never failing; consequently `SetScenario` with an unrecognized name silently
installs the `healthy` scenario (and resets the timer). -/
theorem getScenario_fallback (name : String) :
    (name = "healthy" → GetScenario name = healthyScenario) ∧
    (name = "high-errors" → GetScenario name = highErrorsScenario) ∧
    (name = "latency-spike" → GetScenario name = latencySpikeScenario) ∧
    (name = "gradual-degradation" → GetScenario name = gradualDegradationScenario) ∧
    (name ∉ ValidScenarioTypes → GetScenario name = healthyScenario) ∧
    (∀ (st : MockState) (now : ℚ),
      (SetScenario st name now).currentScenario = GetScenario name ∧
      (SetScenario st name now).startTime = now ∧
      (name ∉ ValidScenarioTypes →
        (SetScenario st name now).currentScenario = healthyScenario)) := by
  have hout : name ∉ ValidScenarioTypes → GetScenario name = healthyScenario := by
    intro h
    simp only [ValidScenarioTypes, List.mem_cons, List.not_mem_nil, or_false,
      not_or] at h
    obtain ⟨h1, h2, h3, h4⟩ := h
    have hb1 : (name == "healthy") = false := beq_eq_false_iff_ne.mpr h1
    have hb2 : (name == "high-errors") = false := beq_eq_false_iff_ne.mpr h2
    have hb3 : (name == "latency-spike") = false := beq_eq_false_iff_ne.mpr h3
    have hb4 : (name == "gradual-degradation") = false := beq_eq_false_iff_ne.mpr h4
    simp [GetScenario, AllScenarios, List.lookup, hb1, hb2, hb3, hb4]
  refine ⟨?_, ?_, ?_, ?_, hout, ?_⟩
  · rintro rfl; rfl
  · rintro rfl; rfl
  · rintro rfl; rfl
  · rintro rfl; rfl
  · intro st now
    exact ⟨rfl, rfl, fun h => hout h⟩

/-- C5 witness: the unknown name `bogus` yields the `healthy` scenario, both
from the lookup and through `SetScenario`. -/
theorem getScenario_fallback_witness :
    GetScenario "bogus" = healthyScenario ∧
    (SetScenario ⟨highErrorsScenario, 7⟩ "bogus" 42).currentScenario =
      healthyScenario :=
  ⟨(getScenario_fallback "bogus").2.2.2.2.1 (by decide),
   (((getScenario_fallback "bogus").2.2.2.2.2 ⟨highErrorsScenario, 7⟩ 42).2.2)
     (by decide)⟩

/-- C7: the duration formatter agrees with the spec's description on every
non-negative duration, and on the spec's concrete examples: 3665 seconds
renders as `"1h 1m 5s"` and 65 seconds as `"1m 5s"`. -/
theorem formatDuration_spec :
    (∀ ns : ℕ, formatDuration ns = formatDurationSpec ns) ∧
    formatDuration 3665000000000 = "1h 1m 5s" ∧
    formatDuration 65000000000 = "1m 5s" := by
  refine ⟨?_, by decide, by decide⟩
  intro ns
  have hr : roundGo ns = 1000000000 * ((ns + 500000000) / 1000000000) := by
    simp only [roundGo]
    split <;> omega
  simp only [formatDuration, formatDurationSpec, hr]
  generalize (ns + 500000000) / 1000000000 = t
  have h1 : 1000000000 * t / 3600000000000 = t / 3600 := by omega
  have h2 : 1000000000 * t / 60000000000 % 60 = t / 60 % 60 := by omega
  have h3 : 1000000000 * t / 1000000000 % 60 = t % 60 := by omega
  rw [h1, h2, h3]
  split_ifs with ha hb hc hd
  all_goals try rfl
  all_goals try omega
  · have e : t / 60 % 60 = t / 60 := by omega
    rw [e]
  · have e : t % 60 = t := by omega
    rw [e]

/-- C8 counterexample: two possible iteration orders of the same scenario
map (Go randomizes map iteration order) produce the four entries in
different orders, so no call-independent fixed order exists. -/
theorem listScenarios_order_not_fixed :
    List.Perm AllScenarios.reverse AllScenarios ∧
    listScenarios AllScenarios.reverse ≠ listScenarios AllScenarios := by
  exact ⟨List.reverse_perm AllScenarios, by decide⟩

/-- C8 (amended): every iteration order of the scenario map yields the same
four `{name, description}` entries up to permutation (always exactly four),
but not in one fixed deterministic order. -/
theorem listScenarios_perm (iterationOrder : List (String × Scenario))
    (h : List.Perm iterationOrder AllScenarios) :
    List.Perm (listScenarios iterationOrder) (listScenarios AllScenarios) ∧
    (listScenarios iterationOrder).length = 4 := by
  refine ⟨h.map _, ?_⟩
  simp [listScenarios, h.length_eq, AllScenarios]

/-- C8 witness: the reversed iteration order is a permutation of the map and
yields the same four entries up to permutation. -/
theorem listScenarios_perm_witness :
    List.Perm (listScenarios AllScenarios.reverse) (listScenarios AllScenarios) ∧
    (listScenarios AllScenarios.reverse).length = 4 :=
  listScenarios_perm AllScenarios.reverse (List.reverse_perm AllScenarios)

/-- Helper: a query whose trimmed form starts with `histogram_quantile(`
is dispatched by `parseQuery` to `handleHistogramQuantile` (it cannot also
start with `rate(`). -/
theorem parseQuery_hist_dispatch (m : MetricValues) (query rest : List Char)
    (htrim : trimSpace query = "histogram_quantile(".toList ++ rest) :
    parseQuery query m = handleHistogramQuantile (trimSpace query) m := by
  have hhist : List.isPrefixOf "histogram_quantile(".toList (trimSpace query) =
      true := by
    rw [htrim]
    exact List.isPrefixOf_iff_prefix.mpr ⟨rest, rfl⟩
  have hnotrate : List.isPrefixOf "rate(".toList (trimSpace query) = false := by
    rw [htrim, Bool.eq_false_iff]
    intro htrue
    have hp := List.isPrefixOf_iff_prefix.mp htrue
    rw [List.prefix_iff_eq_take] at hp
    rw [List.take_append_of_le_length (by decide)] at hp
    exact absurd hp (by decide)
  simp only [parseQuery]
  rw [hnotrate, hhist]
  simp

/-- Helper: an extracted quantile inside `[0, 1]` makes
`handleHistogramQuantile` succeed with `meanLatency * multiplier q`. -/
theorem handleHistogramQuantile_eval {query : List Char} (m : MetricValues)
    {q : ℚ} (hq : extractQuantile query = some q) (h0 : 0 ≤ q) (h1 : q ≤ 1) :
    handleHistogramQuantile query m =
      Except.ok (m.latency / 1000 * multiplier q) := by
  unfold extractQuantile at hq
  cases hfc : findHistCapture query with
  | none => rw [hfc] at hq; simp at hq
  | some cap =>
    rw [hfc] at hq
    simp only [Option.some_bind] at hq
    simp only [handleHistogramQuantile, hfc, hq]
    rw [if_neg]
    push_neg
    exact ⟨h0, h1⟩

/-- C2: for every query of the form `histogram_quantile(q, ...)` whose
extracted quantile parses to `q ∈ [0, 1]`, the evaluator returns
`meanLatency * multiplier` with `meanLatency = latency / 1000`, where the
multiplier is `2.5` for `q ≥ 0.99`, the linear interpolation between `1.5`
(at `0.95`) and `2.5` (at `0.99`) on `[0.95, 0.99)`, the linear interpolation
between `0.8` (at `0.50`) and `1.5` (at `0.95`) on `[0.50, 0.95)`, and
`q / 0.50 * 0.8` below `0.50`. -/
theorem histogramQuantile_result (m : MetricValues) (query rest : List Char)
    (q : ℚ)
    (htrim : trimSpace query = "histogram_quantile(".toList ++ rest)
    (hq : extractQuantile (trimSpace query) = some q)
    (h0 : 0 ≤ q) (h1 : q ≤ 1) :
    parseQuery query m = Except.ok (m.latency / 1000 * multiplier q) ∧
    (0.99 ≤ q → multiplier q = 2.5) ∧
    (0.95 ≤ q → q < 0.99 →
      multiplier q = 1.5 + (2.5 - 1.5) * ((q - 0.95) / (0.99 - 0.95))) ∧
    (0.50 ≤ q → q < 0.95 →
      multiplier q = 0.8 + (1.5 - 0.8) * ((q - 0.50) / (0.95 - 0.50))) ∧
    (q < 0.50 → multiplier q = q / 0.50 * 0.8) ∧
    multiplier 0.50 = 0.8 ∧ multiplier 0.95 = 1.5 ∧ multiplier 0.99 = 2.5 := by
  refine ⟨?_, ?_, ?_, ?_, ?_, by norm_num [multiplier], by norm_num [multiplier],
    by norm_num [multiplier]⟩
  · rw [parseQuery_hist_dispatch m query rest htrim]
    exact handleHistogramQuantile_eval m hq h0 h1
  · intro h99
    simp [multiplier, h99]
  · intro h95 h99
    simp only [multiplier, if_neg (not_le.mpr h99), if_pos h95]
    ring
  · intro h50 h95
    have hn99 : ¬(0.99 : ℚ) ≤ q := not_le.mpr (h95.trans_le (by norm_num))
    simp only [multiplier, if_neg hn99, if_neg (not_le.mpr h95), if_pos h50]
    ring
  · intro h50
    have hn99 : ¬(0.99 : ℚ) ≤ q := not_le.mpr (h50.trans_le (by norm_num))
    have hn95 : ¬(0.95 : ℚ) ≤ q := not_le.mpr (h50.trans_le (by norm_num))
    simp only [multiplier, if_neg hn99, if_neg hn95, if_neg (not_le.mpr h50)]

/-- C2 witness: the p99 query against the healthy snapshot evaluates to
`meanLatency * multiplier 0.99`. -/
theorem histogramQuantile_result_witness :
    parseQuery
        "histogram_quantile(0.99, rate(http_request_duration_seconds_bucket[5m]))".toList
        healthySnapshot =
      Except.ok (healthySnapshot.latency / 1000 * multiplier (99 / 100)) := by
  refine (histogramQuantile_result healthySnapshot
    "histogram_quantile(0.99, rate(http_request_duration_seconds_bucket[5m]))".toList
    "0.99, rate(http_request_duration_seconds_bucket[5m]))".toList
    (99 / 100) (by decide) ?_ (by norm_num) (by norm_num)).1
  have h1 : findHistCapture (trimSpace
      "histogram_quantile(0.99, rate(http_request_duration_seconds_bucket[5m]))".toList) =
      some "0.99".toList := by decide
  have h2 : parseDecimalParts "0.99".toList = some (0, 99, 2) := by decide
  unfold extractQuantile
  rw [h1]
  simp only [Option.some_bind]
  unfold parseDecimal
  rw [h2]
  simp only [Option.map_some', Option.some.injEq]
  norm_num [ratOfParts]

/-- Helper for C6: a successful `handleHistogramQuantile` run forces the
extracted quantile into `[0, 1]` and determines the returned value. -/
theorem handleHistogramQuantile_ok {query : List Char} {m : MetricValues}
    {q v : ℚ}
    (hq : extractQuantile query = some q)
    (h : handleHistogramQuantile query m = Except.ok v) :
    0 ≤ q ∧ q ≤ 1 ∧ v = m.latency / 1000 * multiplier q := by
  unfold extractQuantile at hq
  cases hfc : findHistCapture query with
  | none => rw [hfc] at hq; simp at hq
  | some cap =>
    rw [hfc] at hq
    simp only [Option.some_bind] at hq
    simp only [handleHistogramQuantile, hfc, hq] at h
    by_cases hr : q < 0 ∨ q > 1
    · rw [if_pos hr] at h; simp at h
    · rw [if_neg hr] at h
      push_neg at hr
      exact ⟨hr.1, hr.2, (Except.ok.inj h).symm⟩

/-- Helper for C6: the quantile-band multiplier is monotone on `[0, ∞)`. -/
theorem multiplier_mono {q1 q2 : ℚ} (h0 : 0 ≤ q1) (h : q1 ≤ q2) :
    multiplier q1 ≤ multiplier q2 := by
  unfold multiplier
  split_ifs <;> (try norm_num) <;> linarith

/-- C6: for a fixed snapshot with non-negative latency, the scalar produced
for a `histogram_quantile` query is monotonically non-decreasing in the
extracted quantile: whenever two queries evaluate successfully and the first
quantile is at most the second, the first result is at most the second. -/
theorem histogramQuantile_monotone (m : MetricValues) (hl : 0 ≤ m.latency)
    (query1 query2 : List Char) (q1 q2 v1 v2 : ℚ)
    (hq1 : extractQuantile query1 = some q1)
    (hq2 : extractQuantile query2 = some q2)
    (hle : q1 ≤ q2)
    (h1 : handleHistogramQuantile query1 m = Except.ok v1)
    (h2 : handleHistogramQuantile query2 m = Except.ok v2) :
    v1 ≤ v2 := by
  obtain ⟨ha1, hb1, hv1⟩ := handleHistogramQuantile_ok hq1 h1
  obtain ⟨ha2, hb2, hv2⟩ := handleHistogramQuantile_ok hq2 h2
  rw [hv1, hv2]
  exact mul_le_mul_of_nonneg_left (multiplier_mono ha1 hle)
    (div_nonneg hl (by norm_num))

/-- C6 witness: against the healthy snapshot, the p50 result is at most the
p99 result. -/
theorem histogramQuantile_monotone_witness :
    healthySnapshot.latency / 1000 * multiplier (1 / 2) ≤
      healthySnapshot.latency / 1000 * multiplier (99 / 100) := by
  have e1 : extractQuantile
      "histogram_quantile(0.50, rate(http_request_duration_seconds_bucket[5m]))".toList =
      some (1 / 2 : ℚ) := by
    have h1 : findHistCapture
        "histogram_quantile(0.50, rate(http_request_duration_seconds_bucket[5m]))".toList =
        some "0.50".toList := by decide
    have h2 : parseDecimalParts "0.50".toList = some (0, 50, 2) := by decide
    unfold extractQuantile
    rw [h1]
    simp only [Option.some_bind]
    unfold parseDecimal
    rw [h2]
    simp only [Option.map_some', Option.some.injEq]
    norm_num [ratOfParts]
  have e2 : extractQuantile
      "histogram_quantile(0.99, rate(http_request_duration_seconds_bucket[5m]))".toList =
      some (99 / 100 : ℚ) := by
    have h1 : findHistCapture
        "histogram_quantile(0.99, rate(http_request_duration_seconds_bucket[5m]))".toList =
        some "0.99".toList := by decide
    have h2 : parseDecimalParts "0.99".toList = some (0, 99, 2) := by decide
    unfold extractQuantile
    rw [h1]
    simp only [Option.some_bind]
    unfold parseDecimal
    rw [h2]
    simp only [Option.map_some', Option.some.injEq]
    norm_num [ratOfParts]
  exact histogramQuantile_monotone healthySnapshot (by norm_num [healthySnapshot])
    "histogram_quantile(0.50, rate(http_request_duration_seconds_bucket[5m]))".toList
    "histogram_quantile(0.99, rate(http_request_duration_seconds_bucket[5m]))".toList
    (1 / 2) (99 / 100)
    (healthySnapshot.latency / 1000 * multiplier (1 / 2))
    (healthySnapshot.latency / 1000 * multiplier (99 / 100))
    e1 e2 (by norm_num)
    (handleHistogramQuantile_eval healthySnapshot e1 (by norm_num) (by norm_num))
    (handleHistogramQuantile_eval healthySnapshot e2 (by norm_num) (by norm_num))

/-- C9: every failed evaluation produces a response with status `error` and
the single errorType `bad_data` regardless of the failure cause; the
response carries the cause only in the human-readable message (the
`PrometheusResponse` shape has no other machine-readable kind field), so two
different causes share status and errorType and differ only in the message. -/
theorem executeQuery_error_uniform :
    (∀ (query : List Char) (m : MetricValues) (now : ℤ) (e : List Char),
      parseQuery query m = Except.error e →
      ExecuteQuery query m now =
        { status := "error".toList, resultType := [], result := [],
          errorMsg := e, errorType := "bad_data".toList }) ∧
    (∀ (q1 q2 : List Char) (m : MetricValues) (now : ℤ) (e1 e2 : List Char),
      parseQuery q1 m = Except.error e1 → parseQuery q2 m = Except.error e2 →
      (ExecuteQuery q1 m now).status = (ExecuteQuery q2 m now).status ∧
      (ExecuteQuery q1 m now).errorType = (ExecuteQuery q2 m now).errorType ∧
      (ExecuteQuery q1 m now).errorType = "bad_data".toList) ∧
    (∀ (m : MetricValues) (now : ℤ),
      (ExecuteQuery "totally_invalid_metric".toList m now).errorMsg ≠
        (ExecuteQuery "rate(incomplete".toList m now).errorMsg) := by
  have base : ∀ (query : List Char) (m : MetricValues) (now : ℤ) (e : List Char),
      parseQuery query m = Except.error e →
      ExecuteQuery query m now =
        { status := "error".toList, resultType := [], result := [],
          errorMsg := e, errorType := "bad_data".toList } := by
    intro query m now e h
    simp [ExecuteQuery, h]
  refine ⟨base, ?_, ?_⟩
  · intro q1 q2 m now e1 e2 h1 h2
    rw [base q1 m now e1 h1, base q2 m now e2 h2]
    exact ⟨rfl, rfl, rfl⟩
  · intro m now h
    exact absurd
      (show ("unsupported metric query: totally_invalid_metric".toList :
          List Char) = "invalid rate query format".toList from h)
      (by decide)

/-- C9 witness: the unknown-metric failure is wrapped into the uniform
`error` / `bad_data` response. -/
theorem executeQuery_error_uniform_witness :
    ExecuteQuery "totally_invalid_metric".toList healthySnapshot 0 =
      { status := "error".toList, resultType := [], result := [],
        errorMsg := "unsupported metric query: totally_invalid_metric".toList,
        errorType := "bad_data".toList } :=
  executeQuery_error_uniform.1 "totally_invalid_metric".toList healthySnapshot 0
    "unsupported metric query: totally_invalid_metric".toList rfl

/-- C10: for queries that (after trimming) match neither function prefix,
the direct substring checks are applied in the fixed source order
`http_requests_errors_total`, `http_request_duration_seconds`, `up`: the
earliest matching metric wins, and any query containing `up` anywhere (even
inside an unrelated word, e.g. `supported_thing`) succeeds with the `up`
value instead of an unknown-metric error. -/
theorem parseQuery_direct_order :
    (∀ (query : List Char) (m : MetricValues),
      List.isPrefixOf "rate(".toList (trimSpace query) = false →
      List.isPrefixOf "histogram_quantile(".toList (trimSpace query) = false →
      (containsSub "http_requests_errors_total".toList (trimSpace query) = true →
        parseQuery query m =
          Except.ok (m.errorRate / 100 * baselineRequestsPerSecond)) ∧
      (containsSub "http_requests_errors_total".toList (trimSpace query) = false →
        containsSub "http_request_duration_seconds".toList (trimSpace query) = true →
        parseQuery query m = Except.ok (m.latency / 1000)) ∧
      (containsSub "http_requests_errors_total".toList (trimSpace query) = false →
        containsSub "http_request_duration_seconds".toList (trimSpace query) = false →
        containsSub "up".toList (trimSpace query) = true →
        parseQuery query m = Except.ok m.up)) ∧
    (∀ m : MetricValues,
      parseQuery "supported_thing".toList m = Except.ok m.up) ∧
    (∀ m : MetricValues,
      parseQuery "up_and_http_requests_errors_total".toList m =
        Except.ok (m.errorRate / 100 * baselineRequestsPerSecond)) ∧
    (∀ m : MetricValues,
      parseQuery "http_request_duration_seconds_up".toList m =
        Except.ok (m.latency / 1000)) := by
  refine ⟨?_, fun m => rfl, fun m => rfl, fun m => rfl⟩
  intro query m h1 h2
  refine ⟨?_, ?_, ?_⟩
  · intro hc1
    simp only [parseQuery]
    rw [h1, h2, hc1]
    simp
  · intro hc1 hc2
    simp only [parseQuery]
    rw [h1, h2, hc1, hc2]
    simp
  · intro hc1 hc2 hc3
    simp only [parseQuery]
    rw [h1, h2, hc1, hc2, hc3]
    simp

/-- C10 witness: the bare `up` query is answered with the `up` value through
the direct-check chain. -/
theorem parseQuery_direct_order_witness :
    parseQuery "up".toList healthySnapshot = Except.ok healthySnapshot.up :=
  ((parseQuery_direct_order.1 "up".toList healthySnapshot rfl rfl).2.2) rfl rfl rfl

/-- C4 counterexample: a negative quantile never matches the `[\d.]+`
extraction pattern, so `histogram_quantile(-0.5, ...)` produces the generic
`invalid histogram_quantile format` message, which does not mention the
offending value and is not a distinct quantile-specific error; and the
`errorType` of that response equals the `errorType` of an unknown-metric
failure, so no machine-readable kind distinguishes the causes. -/
theorem invalidQuantile_kind_counterexample :
    (ExecuteQuery
        "histogram_quantile(-0.5, rate(http_request_duration_seconds_bucket[5m]))".toList
        healthySnapshot 0).errorMsg = "invalid histogram_quantile format".toList ∧
    containsSub "-0.5".toList
      (ExecuteQuery
        "histogram_quantile(-0.5, rate(http_request_duration_seconds_bucket[5m]))".toList
        healthySnapshot 0).errorMsg = false ∧
    containsSub "0.5".toList
      (ExecuteQuery
        "histogram_quantile(-0.5, rate(http_request_duration_seconds_bucket[5m]))".toList
        healthySnapshot 0).errorMsg = false ∧
    (ExecuteQuery
        "histogram_quantile(-0.5, rate(http_request_duration_seconds_bucket[5m]))".toList
        healthySnapshot 0).errorType =
      (ExecuteQuery "totally_invalid_metric".toList healthySnapshot 0).errorType :=
  ⟨rfl, rfl, rfl, rfl⟩

/-- C4 (amended): evaluation failures are surfaced as structured, non-fatal
error responses, all sharing errorType `bad_data` and distinguished only by
message: unknown metric and bad rate syntax get their fixed messages; a
quantile that matches the extraction pattern but parses outside `[0, 1]`
(such as `1.5`) gets `quantile must be between 0 and 1, got: <value>`
including the offending value; a non-numeric or negative quantile argument
fails pattern extraction and gets the generic
`invalid histogram_quantile format` message instead; and every query yields
a well-formed `success` or `error` / `bad_data` response. -/
theorem query_error_taxonomy_amended :
    (∀ (m : MetricValues) (now : ℤ),
      ExecuteQuery "totally_invalid_metric".toList m now =
        { status := "error".toList, resultType := [], result := [],
          errorMsg := "unsupported metric query: totally_invalid_metric".toList,
          errorType := "bad_data".toList }) ∧
    (∀ (m : MetricValues) (now : ℤ),
      ExecuteQuery "rate(incomplete".toList m now =
        { status := "error".toList, resultType := [], result := [],
          errorMsg := "invalid rate query format".toList,
          errorType := "bad_data".toList }) ∧
    (∀ (m : MetricValues) (now : ℤ),
      ExecuteQuery
          "histogram_quantile(1.5, rate(http_request_duration_seconds_bucket[5m]))".toList
          m now =
        { status := "error".toList, resultType := [], result := [],
          errorMsg := "quantile must be between 0 and 1, got: 1.500000".toList,
          errorType := "bad_data".toList }) ∧
    containsSub "1.5".toList
      "quantile must be between 0 and 1, got: 1.500000".toList = true ∧
    (∀ (m : MetricValues) (now : ℤ),
      (ExecuteQuery
        "histogram_quantile(abc, rate(http_request_duration_seconds_bucket[5m]))".toList
        m now).errorMsg = "invalid histogram_quantile format".toList) ∧
    (∀ (query : List Char) (m : MetricValues) (now : ℤ),
      (ExecuteQuery query m now).status = "success".toList ∨
      ((ExecuteQuery query m now).status = "error".toList ∧
        (ExecuteQuery query m now).errorType = "bad_data".toList)) := by
  refine ⟨fun m now => rfl, fun m now => rfl, ?_, by decide, fun m now => rfl, ?_⟩
  · intro m now
    have hd : parseQuery
        "histogram_quantile(1.5, rate(http_request_duration_seconds_bucket[5m]))".toList m =
        handleHistogramQuantile (trimSpace
          "histogram_quantile(1.5, rate(http_request_duration_seconds_bucket[5m]))".toList) m :=
      parseQuery_hist_dispatch m _
        "1.5, rate(http_request_duration_seconds_bucket[5m]))".toList (by decide)
    have hfc : findHistCapture (trimSpace
        "histogram_quantile(1.5, rate(http_request_duration_seconds_bucket[5m]))".toList) =
        some "1.5".toList := by decide
    have hpd : parseDecimal "1.5".toList = some (3 / 2 : ℚ) := by
      unfold parseDecimal
      rw [show parseDecimalParts "1.5".toList = some (1, 5, 1) from by decide]
      simp only [Option.map_some', Option.some.injEq]
      norm_num [ratOfParts]
    have hff : formatFixed6 (3 / 2 : ℚ) = "1.500000".toList := by
      have hn : (⌊(3 / 2 : ℚ) * 1000000 + 1 / 2⌋ : ℤ) = 1500000 := by norm_num
      simp only [formatFixed6, hn]
      decide
    have hmsg : parseQuery
        "histogram_quantile(1.5, rate(http_request_duration_seconds_bucket[5m]))".toList m =
        Except.error "quantile must be between 0 and 1, got: 1.500000".toList := by
      rw [hd]
      simp only [handleHistogramQuantile, hfc, hpd]
      rw [if_pos (by norm_num : (3 / 2 : ℚ) < 0 ∨ (3 / 2 : ℚ) > 1), hff]
      exact congrArg Except.error (by decide)
    unfold ExecuteQuery
    rw [hmsg]
  · intro query m now
    rcases h : parseQuery query m with e | v
    · right
      simp [ExecuteQuery, h]
    · left
      simp [ExecuteQuery, h]

/-- C3 helper: the floored latency is always positive. -/
theorem latencySecondsFloor_pos (x : ℝ) : 0 < latencySecondsFloor x := by
  unfold latencySecondsFloor
  split_ifs with h
  · norm_num
  · exact not_le.mp h

/-- C3 helper: every cumulative bucket count is at most the total of 100. -/
theorem cumCount_le_hundred {L b : ℝ} (hL : 0 < L) (hb : 0 ≤ b) :
    cumCount L b ≤ 100 := by
  unfold cumCount
  split_ifs with h
  · exact le_refl _
  · have hr1 : b / L ≤ 1 := by
      rw [div_le_one hL]
      linarith [not_le.mp h]
    have hs := Real.sqrt_le_one.mpr hr1
    nlinarith [Real.sqrt_nonneg (b / L)]

/-- C3 helper: the cumulative count is monotone in the bucket boundary. -/
theorem cumCount_mono {L b1 b2 : ℝ} (hL : 0 < L) (hb1 : 0 ≤ b1)
    (h : b1 ≤ b2) : cumCount L b1 ≤ cumCount L b2 := by
  unfold cumCount
  split_ifs with h1 h2
  · exact le_refl _
  · exact absurd (le_trans h1 h) h2
  · have hr1 : b1 / L ≤ 1 := by
      rw [div_le_one hL]
      linarith [not_le.mp h1]
    have hs := Real.sqrt_le_one.mpr hr1
    nlinarith [Real.sqrt_nonneg (b1 / L)]
  · have hdiv : b1 / L ≤ b2 / L := by gcongr
    have hs := Real.sqrt_le_sqrt hdiv
    have hnn : (0 : ℝ) ≤ Real.sqrt (b1 / L) := Real.sqrt_nonneg _
    nlinarith

/-- C3: for every latency (zero and negative floored to `L = 0.001`), the
cumulative histogram bucket counts of the exposition are non-decreasing
across the ascending boundary list and bounded by the total `100` carried by
the final `+Inf` bucket; each boundary `b ≥ L` carries the full total, each
boundary `b < L` carries `100 * sqrt(b / L)`, and the `_sum` value is
`L * 100` (with `_count` the same total `100`). -/
theorem exposition_buckets_monotone (latencyMs : ℝ) :
    List.Chain' (fun a b : ℝ => a ≤ b) (bucketCounts latencyMs ++ [100]) ∧
    (∀ b ∈ bucketBounds, latencySecondsFloor latencyMs ≤ (b : ℝ) →
      cumCount (latencySecondsFloor latencyMs) b = 100) ∧
    (∀ b ∈ bucketBounds, (b : ℝ) < latencySecondsFloor latencyMs →
      cumCount (latencySecondsFloor latencyMs) b =
        100 * Real.sqrt (b / latencySecondsFloor latencyMs)) ∧
    expositionSum latencyMs = latencySecondsFloor latencyMs * 100 ∧
    0 < latencySecondsFloor latencyMs ∧
    latencySecondsFloor 0 = 0.001 := by
  have hL := latencySecondsFloor_pos latencyMs
  refine ⟨?_, ?_, ?_, rfl, hL, ?_⟩
  · have hchainQ : List.Chain' (fun a b : ℚ => 0 ≤ a ∧ a ≤ b) bucketBounds := by
      simp only [bucketBounds, List.chain'_cons, List.chain'_singleton]
      norm_num
    have hmap : List.Chain' (fun a b : ℝ => a ≤ b) (bucketCounts latencyMs) := by
      unfold bucketCounts
      refine (List.chain'_map
        (fun b : ℚ => cumCount (latencySecondsFloor latencyMs) (b : ℝ))).mpr
        (hchainQ.imp ?_)
      intro a b hab
      exact cumCount_mono hL (by exact_mod_cast hab.1) (by exact_mod_cast hab.2)
    rw [List.chain'_append]
    refine ⟨hmap, List.chain'_singleton _, ?_⟩
    intro x hx y hy
    have hlast : (bucketCounts latencyMs).getLast? =
        some (cumCount (latencySecondsFloor latencyMs) ((10 : ℚ) : ℝ)) := rfl
    rw [hlast] at hx
    simp only [Option.mem_def, Option.some.injEq] at hx
    simp only [List.head?_cons, Option.mem_def, Option.some.injEq] at hy
    subst hx
    subst hy
    exact cumCount_le_hundred hL (by norm_num)
  · intro b hb hle
    unfold cumCount
    rw [if_pos hle]
  · intro b hb hlt
    unfold cumCount
    rw [if_neg (not_le.mpr hlt)]
  · unfold latencySecondsFloor
    norm_num

end Stage
